import Mathlib

/-!
Verification of the `testsprite_tests` Playwright scripts of KIOSK_FRONTEND_V1.

Every file in the repository is a Python module of the same shape:

  (imports: asyncio; playwright async_api)
  async def run_test():
      pw = None; browser = None; context = None
      try:
          pw = await async_api.async_playwright().start()
          browser = await pw.chromium.launch(...)
          context = await browser.new_context(); context.set_default_timeout(5000)
          page = await context.new_page()
          await page.goto("http://localhost:3000", wait_until="commit", timeout=10000)
          try: await page.wait_for_load_state("domcontentloaded", timeout=3000)
          except async_api.Error: pass
          for frame in page.frames:
              try: await frame.wait_for_load_state("domcontentloaded", timeout=3000)
              except async_api.Error: pass
          <script-specific statements>
      finally:
          if context: await context.close()
          if browser: await browser.close()
          if pw: await pw.stop()
  asyncio.run(run_test())

The script-specific statements are a linear sequence of
`await page.goto(url, wait_until="commit", timeout=...)` statements,
`elem = frame.locator('xpath=...').nth(0)` followed by
`await page.wait_for_timeout(g); await elem.click(timeout=t)` statements,
final assertion blocks
`try: await expect(frame.locator('text=T').first).to_be_visible(timeout=3000)
 except AssertionError: raise AssertionError(msg)`,
and a trailing `await asyncio.sleep(5)`.  Two files (TC007, TC014) additionally
contain literal Markdown code-fence lines inside the body of `run_test`.

The embedding below transcribes each body statement, and gives the bodies an
execution semantics parameterised by an environment oracle that decides which
acquisitions, navigations and clicks succeed and which texts become visible.
-/

set_option maxRecDepth 100000

namespace Kiosk

/-- One executable Python statement of the body of `run_test`, transcribed from the
source.  A `click` records the grace delay of the `page.wait_for_timeout(g)` call that
shares its source line and the `timeout=t` argument of `elem.click`; an `assertVisible`
records the whole try/except block: the `text=` fragment of the locator, the
`timeout=` argument of `to_be_visible`, and the message of the descriptive
`AssertionError` re-raised by the handler. -/
inductive Stmt where
  | goto (url : String) (timeoutMs : Nat)
  | tryWaitLoadState (timeoutMs : Nat)
  | framesWaitLoadState (timeoutMs : Nat)
  | click (xpath : String) (graceMs : Nat) (clickTimeoutMs : Nat)
  | assertVisible (expected : String) (timeoutMs : Nat) (failMsg : String)
  | sleepSecs (n : Nat)
  deriving DecidableEq

/-- A line of the body of `run_test`: either a Python statement, or a raw line
transcribed verbatim that is not a Python statement at all (the Markdown code
fences found in TC007 and TC014). -/
inductive BodyItem where
  | stmt (s : Stmt)
  | rawLine (text : String)
  deriving DecidableEq

/-- A test script: its TCxxx identifier and the transcribed body of `run_test`. -/
structure Script where
  name : String
  body : List BodyItem
  deriving DecidableEq

/-- Scan the characters of a Python source line, tracking string-literal state, and
report whether a backtick occurs outside string literals and comments.  The backtick
(code 96) is not part of any Python token, so a line carrying one outside a literal
cannot be tokenized and the whole module fails to parse.  Code 35 is the comment
character, codes 39 and 34 are the two quote characters. -/
def strayBacktick : List Char → Option Nat → Bool
  | [], _ => false
  | c :: rest, some q => if c.toNat = q then strayBacktick rest none else strayBacktick rest (some q)
  | c :: rest, none =>
    if c.toNat = 35 then false
    else if c.toNat = 96 then true
    else if c.toNat = 39 || c.toNat = 34 then strayBacktick rest (some c.toNat)
    else strayBacktick rest none

/-- Does the module parse?  Transcribed Python statements are well formed; a raw
non-statement line parses only if it at least survives the tokenizer, which the
fence lines (a backtick outside any literal) do not. -/
def pyParses (s : Script) : Bool :=
  s.body.all fun it =>
    match it with
    | .stmt _ => true
    | .rawLine l => ! strayBacktick l.data none

/-- The statements of the body, in order (raw non-statement lines dropped;
meaningful only when `pyParses` holds, which is the only case in which the
semantics consults it). -/
def stmtsOf (body : List BodyItem) : List Stmt :=
  body.filterMap fun it =>
    match it with
    | .stmt s => some s
    | .rawLine _ => none

/-- The names bound in the scope of `run_test`: the two module imports
(`asyncio` and `async_api`, the two modules the file brings in), the function, and
the local variables assigned inside it.  No script imports or defines `expect`. -/
def runTestScope : List String :=
  ["asyncio", "async_api", "run_test", "pw", "browser", "context", "page", "frame", "elem"]

/-- Is the name `expect` resolvable inside `run_test`? -/
def expectDefined : Bool := runTestScope.contains "expect"

/-- Python exceptions the body can raise. -/
inductive PyError where
  | playwrightTimeout
  | nameError (missing : String)
  | assertionError (msg : String)
  deriving DecidableEq

/-- How the whole module run ends. -/
inductive ExitKind where
  | normal
  | syntaxError
  | bootFailure
  | raised (e : PyError)
  deriving DecidableEq

/-- The browser-automation resources the `finally` block releases. -/
inductive Res where
  | context
  | browser
  | pw
  deriving DecidableEq

/-- Environment oracle: which acquisitions succeed, whether the n-th `goto` commits
within its timeout, whether the n-th click resolves and clicks within its timeout,
and whether a text fragment becomes visible within a given number of milliseconds. -/
structure Env where
  pwStartOk : Bool
  launchOk : Bool
  newContextOk : Bool
  newPageOk : Bool
  gotoOk : Nat → Bool
  clickOk : Nat → Bool
  visible : String → Nat → Bool

/-- Result of running the statements of a body: how many statements completed,
how many of them were gotos / clicks / assertion blocks, and the first uncaught
exception if one was raised. -/
structure BodyResult where
  executed : Nat
  gotosDone : Nat
  clicksDone : Nat
  assertsDone : Nat
  err : Option PyError
  deriving DecidableEq

/-- Run a list of statements.  `gi` and `ci` number the goto and click occurrences
for the oracle.  A `goto` that does not commit raises an uncaught timeout error
(there is no handler around it in any script); a click whose element does not
resolve within its timeout likewise raises uncaught; the two bootstrap
`wait_for_load_state` statements swallow their errors (`except async_api.Error:
pass`) and always continue; an assertion block first evaluates the name `expect`,
raising `NameError` when it is not in scope, and otherwise checks visibility,
re-raising the descriptive `AssertionError` on failure.  An uncaught exception
stops execution of the remaining statements. -/
def runStmts (env : Env) (ed : Bool) : List Stmt → Nat → Nat → BodyResult
  | [], _, _ => { executed := 0, gotosDone := 0, clicksDone := 0, assertsDone := 0, err := none }
  | .goto _ _ :: rest, gi, ci =>
    if env.gotoOk gi then
      let r := runStmts env ed rest (gi + 1) ci
      { r with executed := r.executed + 1, gotosDone := r.gotosDone + 1 }
    else { executed := 0, gotosDone := 0, clicksDone := 0, assertsDone := 0, err := some .playwrightTimeout }
  | .tryWaitLoadState _ :: rest, gi, ci =>
    let r := runStmts env ed rest gi ci
    { r with executed := r.executed + 1 }
  | .framesWaitLoadState _ :: rest, gi, ci =>
    let r := runStmts env ed rest gi ci
    { r with executed := r.executed + 1 }
  | .click _ _ _ :: rest, gi, ci =>
    if env.clickOk ci then
      let r := runStmts env ed rest gi (ci + 1)
      { r with executed := r.executed + 1, clicksDone := r.clicksDone + 1 }
    else { executed := 0, gotosDone := 0, clicksDone := 0, assertsDone := 0, err := some .playwrightTimeout }
  | .assertVisible txt t msg :: rest, gi, ci =>
    if ed then
      if env.visible txt t then
        let r := runStmts env ed rest gi ci
        { r with executed := r.executed + 1, assertsDone := r.assertsDone + 1 }
      else { executed := 0, gotosDone := 0, clicksDone := 0, assertsDone := 0, err := some (.assertionError msg) }
    else { executed := 0, gotosDone := 0, clicksDone := 0, assertsDone := 0, err := some (.nameError "expect") }
  | .sleepSecs _ :: rest, gi, ci =>
    let r := runStmts env ed rest gi ci
    { r with executed := r.executed + 1 }

/-- The `finally` block of every script, transcribed: close the context if it was
created, then the browser if it was created, then stop the playwright session if it
was started. -/
def teardownCloses (createdContext createdBrowser createdPw : Bool) : List Res :=
  (if createdContext then [Res.context] else []) ++
    (if createdBrowser then [Res.browser] else []) ++
      (if createdPw then [Res.pw] else [])

/-- Result of running a whole script module. -/
structure RunResult where
  exit : ExitKind
  sessionStarted : Bool
  createdPw : Bool
  createdBrowser : Bool
  createdContext : Bool
  closes : List Res
  stmtsDone : Nat
  gotosDone : Nat
  clicksDone : Nat
  assertsDone : Nat
  deriving DecidableEq

/-- Map a body result to the exit of `run_test`. -/
def bodyExit (r : BodyResult) : ExitKind :=
  match r.err with
  | none => .normal
  | some e => .raised e

/-- Run a script module.  A module that fails to parse executes nothing: `run_test`
is never defined, no session is started and no teardown runs.  Otherwise the
bootstrap acquires the session, browser, context and page in order — a failure of
any acquisition leaves the later resources uncreated and jumps to the `finally`
block — and then the body statements run, with the `finally` block releasing
exactly the created resources on every path out of the `try`. -/
def runScript (s : Script) (env : Env) : RunResult :=
  if pyParses s then
    if env.pwStartOk then
      if env.launchOk then
        if env.newContextOk then
          if env.newPageOk then
            let r := runStmts env expectDefined (stmtsOf s.body) 0 0
            { exit := bodyExit r, sessionStarted := true, createdPw := true,
              createdBrowser := true, createdContext := true,
              closes := teardownCloses true true true,
              stmtsDone := r.executed, gotosDone := r.gotosDone,
              clicksDone := r.clicksDone, assertsDone := r.assertsDone }
          else
            { exit := .bootFailure, sessionStarted := true, createdPw := true,
              createdBrowser := true, createdContext := true,
              closes := teardownCloses true true true,
              stmtsDone := 0, gotosDone := 0, clicksDone := 0, assertsDone := 0 }
        else
          { exit := .bootFailure, sessionStarted := true, createdPw := true,
            createdBrowser := true, createdContext := false,
            closes := teardownCloses false true true,
            stmtsDone := 0, gotosDone := 0, clicksDone := 0, assertsDone := 0 }
      else
        { exit := .bootFailure, sessionStarted := true, createdPw := true,
          createdBrowser := false, createdContext := false,
          closes := teardownCloses false false true,
          stmtsDone := 0, gotosDone := 0, clicksDone := 0, assertsDone := 0 }
    else
      { exit := .bootFailure, sessionStarted := false, createdPw := false,
        createdBrowser := false, createdContext := false,
        closes := teardownCloses false false false,
        stmtsDone := 0, gotosDone := 0, clicksDone := 0, assertsDone := 0 }
  else
    { exit := .syntaxError, sessionStarted := false, createdPw := false,
      createdBrowser := false, createdContext := false, closes := [],
      stmtsDone := 0, gotosDone := 0, clicksDone := 0, assertsDone := 0 }

/-- Shorthand for a transcribed `await page.goto(url, wait_until="commit", timeout=t)`. -/
def nav (url : String) (t : Nat) : BodyItem := .stmt (.goto url t)

/-- Shorthand for a transcribed `elem = frame.locator(xp).nth(0)` followed by
`await page.wait_for_timeout(g); await elem.click(timeout=t)`. -/
def clk (xp : String) (g t : Nat) : BodyItem := .stmt (.click xp g t)

/-- Shorthand for a transcribed final assertion block. -/
def asrt (txt : String) (t : Nat) (msg : String) : BodyItem := .stmt (.assertVisible txt t msg)

/-- Shorthand for a transcribed `await asyncio.sleep(n)`. -/
def slp (n : Nat) : BodyItem := .stmt (.sleepSecs n)

/-- The literal Markdown code-fence line found in the bodies of TC007 and TC014:
eight spaces of indentation followed by three backticks. -/
def fence : BodyItem := .rawLine "        \x60\x60\x60"

/-- The statements every body begins with, shared verbatim by all thirteen files:
the initial navigation to the kiosk URL, the swallowed `wait_for_load_state` on the
page, and the swallowed `wait_for_load_state` loop over the frames. -/
def commonPrelude : List BodyItem :=
  [nav "http://localhost:3000" 10000,
   .stmt (.tryWaitLoadState 3000),
   .stmt (.framesWaitLoadState 3000)]

/-- Transcription of src/testsprite_tests/TC002_Toggle_interaction_modes_between_Voice_and_Manual.py: the statements of the
body of run_test after the shared bootstrap, in source order. -/
def TC002 : Script :=
  { name := "TC002"
    body := commonPrelude ++ [
    nav "http://localhost:3000" 10000,
    clk "xpath=html/body/div/div/div[1]/div[2]/div[1]/div/div" 3000 5000,
    clk "xpath=html/body/div[1]/div/div[1]/div[1]/canvas" 3000 5000,
    clk "xpath=html/body/div/div/div[1]/div[2]/button" 3000 5000,
    clk "xpath=html/body/div/div/div[1]/div[1]/canvas" 3000 5000,
    clk "xpath=html/body/div[1]/div/div[1]/div[2]/div[1]/div/div" 3000 5000,
    clk "xpath=html/body/div/div/div[1]/div[2]/button" 3000 5000,
    nav "http://localhost:3000" 10000,
    nav "http://localhost:3000" 10000,
    nav "http://localhost:3000" 10000,
    clk "xpath=html/body/div/div/div[1]/div[2]/div[1]/div/div" 3000 5000,
    clk "xpath=html/body/div[1]/div/div[1]/div[1]/canvas" 3000 5000,
    nav "http://localhost:3000" 10000,
    clk "xpath=html/body/div/div/div[1]/div[2]/div[1]/div/div" 3000 5000,
    clk "xpath=html/body/div/div/div[1]/div[2]/button" 3000 5000,
    clk "xpath=html/body/div/div/div[1]/div[2]/div/div[3]/button" 3000 5000,
    clk "xpath=html/body/div/div/div[1]/div[2]/div[1]/div/div" 3000 5000,
    clk "xpath=html/body/div[1]/div/div[1]/div[2]/div[1]/div/div" 3000 5000,
    clk "xpath=html/body/div/div/div[1]/div[2]/button" 3000 5000,
    clk "xpath=html/body/div/div/div[1]/div[2]/div[1]/div/div" 3000 5000,
    clk "xpath=html/body/div[1]/div/div[1]/div[2]/div[1]/div/div" 3000 5000,
    clk "xpath=html/body/div/div/div[1]/div[2]/button" 3000 5000,
    clk "xpath=html/body/div/div/div[1]/div[2]/div[1]/div/div" 3000 5000,
    clk "xpath=html/body/div[1]/div/div[1]/div[2]/div[1]/div/div" 3000 5000,
    clk "xpath=html/body/div/div/div[1]/div[2]/button" 3000 5000,
    clk "xpath=html/body/div/div/div[1]/div[2]/div[1]/div/div" 3000 5000,
    clk "xpath=html/body/div[1]/div/div[1]/div[2]/div[1]/div/div" 3000 5000,
    slp 5] }

/-- Transcription of src/testsprite_tests/TC004_Navigate_from_Welcome_Page_to_Book_Room_flow_using_Voice_Mode.py: the statements of the
body of run_test after the shared bootstrap, in source order. -/
def TC004 : Script :=
  { name := "TC004"
    body := commonPrelude ++ [
    nav "http://localhost:3000" 10000,
    clk "xpath=html/body/div/div/div[1]/div[2]/div[1]/div/div" 3000 5000,
    clk "xpath=html/body/div[1]/div/div[1]/div[2]/div[1]/div/div" 3000 5000,
    clk "xpath=html/body/div/div/div[1]/div[4]/div[2]/button" 3000 5000,
    clk "xpath=html/body/div/div/div[1]/div[1]/canvas" 3000 5000,
    clk "xpath=html/body/div[1]/div/div[1]/div[1]/canvas" 3000 5000,
    clk "xpath=html/body/div/div/div[1]/div[4]/div[2]/button" 3000 5000,
    clk "xpath=html/body/div/div/div[1]/div[4]/div[2]/button" 3000 5000,
    clk "xpath=html/body/div/div/div[1]/div[2]/div[1]" 3000 5000,
    clk "xpath=html/body/div[1]/div/div[1]" 3000 5000,
    clk "xpath=html/body/div/div/div[1]/div[4]/div[2]/button" 3000 5000,
    clk "xpath=html/body/div/div/div[1]/div[2]/div[1]/div/div" 3000 5000,
    clk "xpath=html/body/div[1]/div/div[1]/div[2]/div[1]/div/div" 3000 5000,
    nav "http://localhost:3000" 10000,
    clk "xpath=html/body/div/div/div[1]/div[2]/div[1]/div/div" 3000 5000,
    clk "xpath=html/body/div[1]/div/div[1]/div[2]/div[1]/h1" 3000 5000,
    clk "xpath=html/body/div/div/div[1]/div[4]/div[2]/button" 3000 5000,
    clk "xpath=html/body/div/div/div[1]/div[4]/div[2]/button" 3000 5000,
    clk "xpath=html/body/div/div/div[1]/div[2]/div[1]/div/div" 3000 5000,
    nav "http://localhost:3000" 10000,
    asrt "Available Rooms" 3000 "Test case failed: The voice command 'Book Room' did not navigate to the Room Selection page showing available rooms; the test expected the Room Selection UI with a list of available rooms but it was not visible.",
    slp 5] }

/-- Transcription of src/testsprite_tests/TC006_Select_room_and_proceed_to_payment_in_Booking_workflow.py: the statements of the
body of run_test after the shared bootstrap, in source order. -/
def TC006 : Script :=
  { name := "TC006"
    body := commonPrelude ++ [
    nav "http://localhost:3000" 10000,
    nav "http://localhost:3000" 10000,
    nav "http://localhost:3000" 10000,
    nav "http://localhost:3000/rooms" 10000,
    clk "xpath=html/body/div/div/div[1]/div[2]/div[1]/div/div" 3000 5000,
    clk "xpath=html/body/div[1]/div/div[1]/div[2]/div[1]/div/div" 3000 5000,
    clk "xpath=html/body/div/div/div[1]/div[2]/button" 3000 5000,
    clk "xpath=html/body/div/div/div[1]/div[2]/div[1]/div/div" 3000 5000,
    clk "xpath=html/body/div[1]/div/div[1]/div[1]/canvas" 3000 5000,
    clk "xpath=html/body/div/div/div[1]/div[2]/button" 3000 5000,
    clk "xpath=html/body/div[1]/div/div[1]/div[2]/div/div[2]/button[2]" 3000 5000,
    clk "xpath=html/body/div/div/div[1]/div[2]/div[1]/div/div" 3000 5000,
    clk "xpath=html/body/div[1]/div/div[1]/div[1]/canvas" 3000 5000,
    clk "xpath=html/body/div/div/div[1]/div[2]/button" 3000 5000,
    clk "xpath=html/body/div/div/div[1]/div[2]/div[1]/div/div" 3000 5000,
    clk "xpath=html/body/div[1]/div/div[1]/div[2]/div[1]/div/div" 3000 5000,
    asrt "Payment Summary" 3000 "Test case failed: The test attempted to verify that selecting a room transitions to the payment section displaying the billing breakdown (room cost and applicable taxes), but the payment summary did not appear — the payment screen with cost and tax details was not shown.",
    slp 5] }

/-- Transcription of src/testsprite_tests/TC007_Simulate_card_payment_and_verify_payment_acceptance.py: the statements of the
body of run_test after the shared bootstrap, in source order. -/
def TC007 : Script :=
  { name := "TC007"
    body := commonPrelude ++ [
    nav "http://localhost:3000" 10000,
    clk "xpath=html/body/div/div/div[1]/div[2]/div[1]/div/div" 3000 5000,
    clk "xpath=html/body/div[1]/div/div[1]/div[2]/div[1]/div/div" 3000 5000,
    clk "xpath=html/body/div/div/div[1]/div[2]/button" 3000 5000,
    clk "xpath=html/body/div/div/div[1]/div[1]/canvas" 3000 5000,
    clk "xpath=html/body/div/div/div[1]/div[2]/button" 3000 5000,
    clk "xpath=html/body/div[1]/div/div[1]/div[2]/div/div[2]/button[1]" 3000 5000,
    clk "xpath=html/body/div/div/div[1]/div[1]/canvas" 3000 5000,
    clk "xpath=html/body/div/div/div[1]/div[2]/button" 3000 5000,
    clk "xpath=html/body/div[1]/div/div[1]/div[2]/div/div[2]/button[1]" 3000 5000,
    clk "xpath=html/body/div/div/div[1]/div[2]/div[1]/div/div" 3000 5000,
    clk "xpath=html/body/div/div/div[1]/div[2]/button" 3000 5000,
    clk "xpath=html/body/div/div/div[1]/div[2]/div/div[2]/button[1]" 3000 5000,
    fence,
    asrt "Payment Successful" 3000 "Test case failed: The test attempted to verify that the payment simulation accepted card input and processed the payment, but the 'Payment Successful' confirmation did not appear after submitting the payment",
    fence,
    slp 5] }

/-- Transcription of src/testsprite_tests/TC008_Perform_ID_scanning_simulation_with_visual_progress_feedback.py: the statements of the
body of run_test after the shared bootstrap, in source order. -/
def TC008 : Script :=
  { name := "TC008"
    body := commonPrelude ++ [
    nav "http://localhost:3000" 10000,
    clk "xpath=html/body/div/div/div[1]/div[2]/div[1]/div/div" 3000 5000,
    clk "xpath=html/body/div/div/div[1]/div[2]/button" 3000 5000,
    clk "xpath=html/body/div/div/div[1]/div[2]/div[1]/div/div" 3000 5000,
    nav "http://localhost:3000/" 10000,
    nav "http://localhost:3000/" 10000,
    nav "http://localhost:3000/" 10000,
    nav "http://localhost:3000/" 10000,
    clk "xpath=html/body/div/div/div[1]/div[2]/div[1]/div/div" 3000 5000,
    clk "xpath=html/body/div/div/div[1]/div[2]/button" 3000 5000,
    clk "xpath=html/body/div/div/div[1]/div[2]/div[1]/div/div" 3000 5000,
    clk "xpath=html/body/div/div/div[1]/div[2]/button" 3000 5000,
    clk "xpath=html/body/div[1]/div/div[1]/div[2]/div/div[2]/button[1]" 3000 5000,
    clk "xpath=html/body/div/div/div[1]/div[2]/div[1]/div/div" 3000 5000,
    clk "xpath=html/body/div/div/div[1]/div[2]/button" 3000 5000,
    clk "xpath=html/body/div/div/div[1]/div[2]/div[1]/div/div" 3000 5000,
    clk "xpath=html/body/div/div/div[1]/div[2]/button" 3000 5000,
    clk "xpath=html/body/div/div/div[1]/div[2]/div[1]/div/div" 3000 5000,
    clk "xpath=html/body/div/div/div[1]/div[2]/button" 3000 5000,
    clk "xpath=html/body/div/div/div[1]/div[2]/div[1]/div/div" 3000 5000,
    nav "http://localhost:3000/" 10000,
    slp 5] }

/-- Transcription of src/testsprite_tests/TC009_Verify_room_key_dispensing_simulation_after_successful_payment.py: the statements of the
body of run_test after the shared bootstrap, in source order. -/
def TC009 : Script :=
  { name := "TC009"
    body := commonPrelude ++ [
    nav "http://localhost:3000" 10000,
    clk "xpath=html/body/div/div/div[1]/div[2]/div[1]/div/div" 3000 5000,
    clk "xpath=html/body/div[1]/div/div[1]/div[2]/div[1]/div/div" 3000 5000,
    clk "xpath=html/body/div/div/div[1]/div[2]/button" 3000 5000,
    clk "xpath=html/body/div/div/div[1]/div[2]/div[1]/div/div" 3000 5000,
    nav "http://localhost:3000" 10000,
    nav "http://localhost:3000" 10000,
    clk "xpath=html/body/div/div/div[1]/div[2]/div[1]/div/div" 3000 5000,
    clk "xpath=html/body/div[1]/div/div[1]/div[2]/div[1]/div/div" 3000 5000,
    clk "xpath=html/body/div/div/div[1]/div[2]/button" 3000 5000,
    nav "http://localhost:3000" 10000,
    clk "xpath=html/body/div/div/div[1]/div[2]/div[1]/div/div" 3000 5000,
    clk "xpath=html/body/div[1]/div/div[1]/div[2]/div[1]/div/div" 3000 5000,
    clk "xpath=html/body/div/div/div[1]/div[2]/button" 3000 5000,
    clk "xpath=html/body/div[1]/div/div[1]/div[2]/div/div[2]/button[1]" 3000 5000,
    clk "xpath=html/body/div/div/div[1]/div[2]/div[1]/div/div" 3000 5000,
    clk "xpath=html/body/div[1]/div/div[1]/div[2]/div[1]/div/div" 3000 5000,
    clk "xpath=html/body/div/div/div[1]/div[2]/button" 3000 5000,
    clk "xpath=html/body/div/div/div[1]/div[2]/div[1]/div/div" 3000 5000,
    clk "xpath=html/body/div[1]/div/div[1]/div[2]/div[1]/div/div" 3000 5000,
    clk "xpath=html/body/div/div/div[1]/div[2]/button" 3000 5000,
    nav "http://localhost:3000" 10000,
    clk "xpath=html/body/div/div/div[1]/div[2]/div[1]/div/div" 3000 5000,
    clk "xpath=html/body/div[1]/div/div[1]/div[2]/div[1]/div/div" 3000 5000,
    clk "xpath=html/body/div/div/div[1]/div[2]/button" 3000 5000,
    clk "xpath=html/body/div[1]/div/div[1]/div[2]/div/div[2]/button[1]" 3000 5000,
    clk "xpath=html/body/div/div/div[1]/div[2]/div[1]/div/div" 3000 5000,
    clk "xpath=html/body/div[1]/div/div[1]/div[1]/canvas" 3000 5000,
    clk "xpath=html/body/div/div/div[1]/div[2]/div[1]/div/div" 3000 5000,
    clk "xpath=html/body/div[1]/div/div[1]/div[2]/div[1]/div/div" 3000 5000,
    clk "xpath=html/body/div/div/div[1]/div[2]/button" 3000 5000,
    slp 5] }

/-- Transcription of src/testsprite_tests/TC010_Check_backend_state_machine_drives_frontend_UI_correctly.py: the statements of the
body of run_test after the shared bootstrap, in source order. -/
def TC010 : Script :=
  { name := "TC010"
    body := commonPrelude ++ [
    nav "http://localhost:3000" 10000,
    clk "xpath=html/body/div/div/div[1]/div[2]/div[1]/div/div" 3000 5000,
    clk "xpath=html/body/div[1]/div/div[1]/div[1]/canvas" 3000 5000,
    clk "xpath=html/body/div/div/div[1]/div[4]/div[2]/button" 3000 5000,
    clk "xpath=html/body/div/div/div[1]/div[2]/div[1]/div/div" 3000 5000,
    clk "xpath=html/body/div/div/div[1]/div[4]/div[2]/button" 3000 5000,
    clk "xpath=html/body/div/div/div[1]/div[2]/div[1]/div/div" 3000 5000,
    asrt "Authority: BackendService | State: LISTENING" 3000 "Test case failed: Expected the UI to display 'Authority: BackendService | State: LISTENING' after triggering listening, verifying the frontend reflects backend-emitted state machine transitions; the text was not found, indicating the UI may not be driven by backend events or a premature frontend override occurred",
    slp 5] }

/-- Transcription of src/testsprite_tests/TC012_Complete_end_to_end_Room_Booking_workflow_successfully.py: the statements of the
body of run_test after the shared bootstrap, in source order. -/
def TC012 : Script :=
  { name := "TC012"
    body := commonPrelude ++ [
    nav "http://localhost:3000" 10000,
    clk "xpath=html/body/div/div/div[1]/div[2]/div[1]/div/div" 3000 5000,
    clk "xpath=html/body/div[1]/div/div[1]/div[2]/div[1]/div/div" 3000 5000,
    clk "xpath=html/body/div/div/div[1]/div[2]/button" 3000 5000,
    clk "xpath=html/body/div/div/div[1]/div[2]/div[1]/div/div" 3000 5000,
    clk "xpath=html/body/div[1]/div/div[1]/div[1]/canvas" 3000 5000,
    nav "http://localhost:3000" 10000,
    clk "xpath=html/body/div/div/div[1]/div[1]/canvas" 3000 5000,
    clk "xpath=html/body/div/div/div[1]/div[1]/canvas" 3000 5000,
    clk "xpath=html/body/div[1]/div/div[1]/div[2]/div[1]/h1" 3000 5000,
    clk "xpath=html/body/div/div/div[1]/div[2]/button" 3000 5000,
    clk "xpath=html/body/div/div/div[1]/div[2]/div[1]/div/div" 3000 5000,
    clk "xpath=html/body/div[1]/div/div[1]/div[2]/div[2]" 3000 5000,
    clk "xpath=html/body/div/div/div[1]/div[2]/button" 3000 5000,
    slp 5] }

/-- Transcription of src/testsprite_tests/TC013_Error_handling_for_ID_scanning_simulation_timeout.py: the statements of the
body of run_test after the shared bootstrap, in source order. -/
def TC013 : Script :=
  { name := "TC013"
    body := commonPrelude ++ [
    nav "http://localhost:3000" 10000,
    clk "xpath=html/body/div/div/div[1]/div[2]/div[1]/div/div" 3000 5000,
    clk "xpath=html/body/div[1]/div/div[1]/div[2]/div[1]/div/div" 3000 5000,
    clk "xpath=html/body/div/div/div[1]/div[2]/button" 3000 5000,
    clk "xpath=html/body/div/div/div[1]/div[2]/div[1]/div/div" 3000 5000,
    clk "xpath=html/body/div[1]/div/div[1]/div[2]/div[1]/div/div" 3000 5000,
    clk "xpath=html/body/div/div/div[1]/div[2]/button" 3000 5000,
    clk "xpath=html/body/div/div/div[1]/div[2]/div[1]/div/div" 3000 5000,
    clk "xpath=html/body/div[1]/div/div[1]/div[2]/div[1]/div/div" 3000 5000,
    clk "xpath=html/body/div/div/div[1]/div[2]/button" 3000 5000,
    nav "http://localhost:3000/" 10000,
    clk "xpath=html/body/div/div/div[1]/div[2]/div[1]/div/div" 3000 5000,
    clk "xpath=html/body/div[1]/div/div[1]/div[2]/div[1]/div/div" 3000 5000,
    clk "xpath=html/body/div/div/div[1]/div[2]/button" 3000 5000,
    clk "xpath=html/body/div/div/div[1]/div[2]/div[1]/div/div" 3000 5000,
    clk "xpath=html/body/div[1]/div/div[1]/div[2]/div[1]/div/div" 3000 5000,
    clk "xpath=html/body/div/div/div[1]/div[2]/button" 3000 5000,
    clk "xpath=html/body/div/div/div[1]/div[2]/div[1]/div/div" 3000 5000,
    clk "xpath=html/body/div[1]/div/div[1]/div[2]/div[1]/div/div" 3000 5000,
    clk "xpath=html/body/div/div/div[1]/div[2]/button" 3000 5000,
    clk "xpath=html/body/div/div/div[1]/div[2]/div[1]/div/div" 3000 5000,
    clk "xpath=html/body/div[1]/div/div[1]/div[2]/div[1]/div/div" 3000 5000,
    clk "xpath=html/body/div/div/div[1]/div[2]/div[1]/div/div" 3000 5000,
    clk "xpath=html/body/div[1]/div/div[1]/div[2]/div[1]/div/div" 3000 5000,
    slp 5] }

/-- Transcription of src/testsprite_tests/TC014_Error_handling_for_payment_failure.py: the statements of the
body of run_test after the shared bootstrap, in source order. -/
def TC014 : Script :=
  { name := "TC014"
    body := commonPrelude ++ [
    nav "http://localhost:3000" 10000,
    nav "http://localhost:3000/?reload=1" 10000,
    nav "http://localhost:3000" 10000,
    nav "http://localhost:3000/?debug=1" 10000,
    fence,
    asrt "Payment failed. Please try again or cancel." 3000 "Test case failed: The test simulated a payment failure and expected a clear 'Payment failed' message and visible options to retry or cancel, but the error message or retry/cancel controls did not appear.",
    fence,
    slp 5] }

/-- Transcription of src/testsprite_tests/TC015_Verify_Manual_Mode_action_buttons_are_accessible_and_responsive.py: the statements of the
body of run_test after the shared bootstrap, in source order. -/
def TC015 : Script :=
  { name := "TC015"
    body := commonPrelude ++ [
    nav "http://localhost:3000" 10000,
    clk "xpath=html/body/div/div/div[1]/div[2]/div[1]/div/div" 3000 5000,
    clk "xpath=html/body/div[1]/div/div[1]/div[2]/div[1]/div/div" 3000 5000,
    clk "xpath=html/body/div/div/div[1]/div[2]/button" 3000 5000,
    nav "http://localhost:3000" 10000,
    clk "xpath=html/body/div/div/div[1]/div[1]/canvas" 3000 5000,
    clk "xpath=html/body/div[1]/div/div[1]/div[1]/canvas" 3000 5000,
    clk "xpath=html/body/div/div/div[1]/div[2]/div[1]/div/div" 3000 5000,
    clk "xpath=html/body/div[1]/div/div[1]/div[1]/canvas" 3000 5000,
    clk "xpath=html/body/div/div/div[1]/div[2]/button" 3000 5000,
    clk "xpath=html/body/div/div/div[1]/div[2]/div[1]/div/div" 3000 5000,
    clk "xpath=html/body/div[1]/div/div[1]/div[1]/canvas" 3000 5000,
    clk "xpath=html/body/div/div/div[1]/div[2]/button" 3000 5000,
    asrt "Check-In" 3000 "Test case failed: Expected the 'Check-In' button to be visible and responsive after activating Manual Mode on the Welcome Page; the button did not appear, so manual-mode controls (Check-In, Book Room, Help) are not accessible or the UI did not transition as expected",
    slp 5] }

/-- Transcription of src/testsprite_tests/TC016_Validate_presence_and_correct_functioning_of_Back_button_across_pages.py: the statements of the
body of run_test after the shared bootstrap, in source order. -/
def TC016 : Script :=
  { name := "TC016"
    body := commonPrelude ++ [
    nav "http://localhost:3000" 10000,
    clk "xpath=html/body/div/div/div[1]/div[2]/div[1]/div/div" 3000 5000,
    clk "xpath=html/body/div[1]/div/div[1]/div[2]/div[1]/div/div" 3000 5000,
    clk "xpath=html/body/div/div/div[1]/div[2]/button" 3000 5000,
    clk "xpath=html/body/div/div/div[1]/div[1]/canvas" 3000 5000,
    clk "xpath=html/body/div[1]/div/div[1]/div[2]/div[1]/div/div" 3000 5000,
    clk "xpath=html/body/div/div/div[1]/div[2]/button" 3000 5000,
    clk "xpath=html/body/div/div/div[1]/div[2]/div[1]/div/div" 3000 5000,
    clk "xpath=html/body/div[1]/div/div[1]/div[1]/canvas" 3000 5000,
    clk "xpath=html/body/div/div/div[1]/div[2]/button" 3000 5000,
    clk "xpath=html/body/div/div/div[1]/div[2]/div[1]/div/div" 3000 5000,
    asrt "TOUCH ANYWHERE TO START" 3000 "Test case failed: Expected to return to the Welcome Page and see the 'TOUCH ANYWHERE TO START' prompt after pressing the Back button. The Back button did not navigate back to the Welcome Page or the welcome prompt was not visible.",
    slp 5] }

/-- Transcription of src/testsprite_tests/TC017_Ensure_global_state_updates_correctly_on_user_actions_emitting_intents.py: the statements of the
body of run_test after the shared bootstrap, in source order. -/
def TC017 : Script :=
  { name := "TC017"
    body := commonPrelude ++ [
    nav "http://localhost:3000" 10000,
    clk "xpath=html/body/div/div/div[1]/div[2]/div[1]/div/div" 3000 5000,
    clk "xpath=html/body/div/div/div[1]/div[2]/div[1]/div/div" 3000 5000,
    clk "xpath=html/body/div[1]/div/div[1]/div[1]/canvas" 3000 5000,
    nav "http://localhost:3000/" 10000,
    nav "http://localhost:3000/" 10000,
    asrt "Intents Emitted and State Updated" 3000 "Test case failed: expected the app to display a confirmation that all user interaction intents (select room, toggle mode, confirm payment) were emitted to the backend and that the global state was updated accordingly ('Intents Emitted and State Updated'), but the confirmation did not appear — indicating intents/state updates were not processed or the UI did not reflect them.",
    slp 5] }


/-- The thirteen scripts of the repository. -/
def allScripts : List Script :=
  [TC002, TC004, TC006, TC007, TC008, TC009, TC010, TC012, TC013, TC014, TC015, TC016, TC017]


/-- The bootstrap acquisitions all succeed. -/
def bootOk (env : Env) : Prop :=
  env.pwStartOk = true ∧ env.launchOk = true ∧ env.newContextOk = true ∧ env.newPageOk = true

/-- Environment in which every acquisition, navigation and click succeeds and no
text ever becomes visible. -/
def envAllOk : Env :=
  { pwStartOk := true, launchOk := true, newContextOk := true, newPageOk := true,
    gotoOk := fun _ => true, clickOk := fun _ => true, visible := fun _ _ => false }

/-- Like `envAllOk` but every click times out. -/
def envClicksFail : Env := { envAllOk with clickOk := fun _ => false }

/-- Like `envAllOk` but every navigation times out. -/
def envGotosFail : Env := { envAllOk with gotoOk := fun _ => false }

/-- Number of click statements of a script. -/
def numClicks (s : Script) : Nat :=
  (stmtsOf s.body).countP fun st =>
    match st with
    | .click _ _ _ => true
    | _ => false

/-- Number of goto statements of a script. -/
def numGotos (s : Script) : Nat :=
  (stmtsOf s.body).countP fun st =>
    match st with
    | .goto _ _ => true
    | _ => false

/-- Number of assertion blocks of a script. -/
def assertCount (s : Script) : Nat :=
  (stmtsOf s.body).countP fun st =>
    match st with
    | .assertVisible _ _ _ => true
    | _ => false

/-- The script ends with an assertion block, followed only by the trailing sleep. -/
def endsWithAssert (s : Script) : Bool :=
  match (stmtsOf s.body).reverse with
  | .sleepSecs _ :: .assertVisible _ _ _ :: _ => true
  | _ => false

/-- A click statement occurs before any assertion block. -/
def clickReachable : List Stmt → Bool
  | [] => false
  | .click _ _ _ :: _ => true
  | .assertVisible _ _ _ :: _ => false
  | _ :: rest => clickReachable rest

/-- An assertion block occurs somewhere in the list. -/
def assertReachable : List Stmt → Bool
  | [] => false
  | .assertVisible _ _ _ :: _ => true
  | _ :: rest => assertReachable rest

/-- Number of click statements strictly before the first assertion block. -/
def clicksBeforeAssert : List Stmt → Nat
  | [] => 0
  | .assertVisible _ _ _ :: _ => 0
  | .click _ _ _ :: rest => clicksBeforeAssert rest + 1
  | _ :: rest => clicksBeforeAssert rest

/-- The first statement of the script is a navigation. -/
def firstStmtIsGoto (s : Script) : Bool :=
  match stmtsOf s.body with
  | .goto _ _ :: _ => true
  | _ => false

/-- Helper for `hasGotoAfterClick`: the flag records whether a click was already seen. -/
def gotoAfterClickAux : List Stmt → Bool → Bool
  | [], _ => false
  | .click _ _ _ :: rest, _ => gotoAfterClickAux rest true
  | .goto _ _ :: rest, seen => seen || gotoAfterClickAux rest seen
  | _ :: rest, seen => gotoAfterClickAux rest seen

/-- Some navigation occurs after a click: `goto` is used mid-script as a reset. -/
def hasGotoAfterClick (s : Script) : Bool :=
  gotoAfterClickAux (stmtsOf s.body) false

/-- Does the character list start with the given pattern? -/
def charsStartWith : List Char → List Char → Bool
  | [], _ => true
  | _ :: _, [] => false
  | c :: cs, d :: ds => c = d && charsStartWith cs ds

/-- Does the haystack contain the needle as a contiguous substring? -/
def containsSub (needle : List Char) : List Char → Bool
  | [] => charsStartWith needle []
  | c :: rest => charsStartWith needle (c :: rest) || containsSub needle rest

/-- The URL is the kiosk base `http://localhost:3000`, possibly extended with a
route or query string after a slash. -/
def urlOnKioskBase (url : String) : Bool :=
  url == "http://localhost:3000" || charsStartWith "http://localhost:3000/".data url.data

/-- Every navigation of the script targets the kiosk base URL. -/
def gotoUrlsOk (s : Script) : Bool :=
  (stmtsOf s.body).all fun st =>
    match st with
    | .goto url _ => urlOnKioskBase url
    | _ => true

/-- Every navigation of the script uses a 10000 ms timeout. -/
def gotoTimeouts10000 (s : Script) : Bool :=
  (stmtsOf s.body).all fun st =>
    match st with
    | .goto _ t => t == 10000
    | _ => true

/-- Every click statement of the script uses the 3000 ms grace delay and the
5000 ms click timeout. -/
def clickConstantsOk (s : Script) : Bool :=
  (stmtsOf s.body).all fun st =>
    match st with
    | .click _ g t => g == 3000 && t == 5000
    | _ => true

/-- Every assertion block of the script uses a 3000 ms visibility timeout. -/
def assertTimeout3000 (s : Script) : Bool :=
  (stmtsOf s.body).all fun st =>
    match st with
    | .assertVisible _ t _ => t == 3000
    | _ => true

/-- No assertion failure message of the script contains its timeout value: the
hand-written message never reports the elapsed time. -/
def assertMsgLacksElapsed (s : Script) : Bool :=
  (stmtsOf s.body).all fun st =>
    match st with
    | .assertVisible _ t msg => ! containsSub (toString t).data msg.data
    | _ => true

/-- Every assertion block of the script uses a 3000 ms timeout and a failure
message containing both the literal expected text and the timeout value. -/
def assertCarries (s : Script) : Bool :=
  (stmtsOf s.body).all fun st =>
    match st with
    | .assertVisible txt t msg =>
      t == 3000 && containsSub txt.data msg.data && containsSub (toString t).data msg.data
    | _ => true

/-- Every assertion failure message contains the literal expected text. -/
def assertCarriesText (s : Script) : Bool :=
  (stmtsOf s.body).all fun st =>
    match st with
    | .assertVisible txt _ msg => containsSub txt.data msg.data
    | _ => true

/-- The script contains an assertion block on exactly this text and timeout. -/
def hasAssertOn (s : Script) (txt : String) (t : Nat) : Bool :=
  (stmtsOf s.body).any fun st =>
    match st with
    | .assertVisible a b _ => a == txt && b == t
    | _ => false

/-- The scripts whose final assertion block is reachable: they parse and their
assertion block is live code. -/
def scriptsWithLiveAssert : List Script := [TC004, TC006, TC010, TC015, TC016, TC017]

/-- Claim C2 as the spec states it: any locator/click failure during setup steps is
swallowed and execution continues with the next step regardless, so with the
bootstrap and every navigation succeeding, every navigation of the script is
reached and performed no matter how the clicks behave. -/
def ClaimC2 : Prop :=
  ∀ s, s ∈ allScripts → ∀ env : Env, bootOk env → (∀ n, env.gotoOk n = true) →
    (runScript s env).gotosDone = numGotos s

/-- Claim C3 as the spec states it: every script ends with an assertion block, and
no script has one anywhere else (so each script has exactly one, in final
position). -/
def ClaimC3 : Prop :=
  ∀ s, s ∈ allScripts → endsWithAssert s = true ∧ assertCount s = 1

/-- Claim C6 as the spec states it: exhausting locator candidates reports a
`NotFound` outcome and never surfaces as an uncaught exception, so no run of any
script ever exits with an uncaught Playwright timeout error. -/
def ClaimC6 : Prop :=
  ∀ s, s ∈ allScripts → ∀ env : Env,
    (runScript s env).exit ≠ ExitKind.raised PyError.playwrightTimeout

/-- Claim C7 as the spec states it: every final visibility assertion is bounded by
3000 ms and its failure carries both the literal expected text and the elapsed
time, and the two payment scripts assert the two payment texts within 3000 ms. -/
def ClaimC7 : Prop :=
  (∀ s, s ∈ allScripts → assertCarries s = true) ∧
  hasAssertOn TC007 "Payment Successful" 3000 = true ∧
  hasAssertOn TC014 "Payment failed. Please try again or cancel." 3000 = true

/-- Claim C9 as the spec states it: `navigate` always returns an outcome rather
than raising an uncaught exception, so (clicks succeeding, bootstrap succeeding)
no run of any script ever exits with an uncaught Playwright timeout error. -/
def ClaimC9 : Prop :=
  ∀ s, s ∈ allScripts → ∀ env : Env, bootOk env → (∀ n, env.clickOk n = true) →
    (runScript s env).exit ≠ ExitKind.raised PyError.playwrightTimeout



theorem mem_TC002 : TC002 ∈ allScripts := List.Mem.head _

theorem mem_TC004 : TC004 ∈ allScripts := by
  unfold allScripts
  repeat first
    | exact List.Mem.head _
    | apply List.Mem.tail

theorem mem_TC006 : TC006 ∈ allScripts := by
  unfold allScripts
  repeat first
    | exact List.Mem.head _
    | apply List.Mem.tail

theorem mem_TC008 : TC008 ∈ allScripts := by
  unfold allScripts
  repeat first
    | exact List.Mem.head _
    | apply List.Mem.tail

theorem mem_TC012 : TC012 ∈ allScripts := by
  unfold allScripts
  repeat first
    | exact List.Mem.head _
    | apply List.Mem.tail

theorem mem_TC013 : TC013 ∈ allScripts := by
  unfold allScripts
  repeat first
    | exact List.Mem.head _
    | apply List.Mem.tail


/-- With every navigation committing and every click timing out, a statement list
that reaches a click before any assertion block aborts with an uncaught Playwright
timeout error: no click completes and execution stops short of the end. -/
theorem runStmts_clicksFail (env : Env) (ed : Bool)
    (hg : ∀ n, env.gotoOk n = true) (hc : ∀ n, env.clickOk n = false) :
    ∀ (l : List Stmt) (gi ci : Nat), clickReachable l = true →
      (runStmts env ed l gi ci).err = some PyError.playwrightTimeout ∧
        (runStmts env ed l gi ci).clicksDone = 0 ∧
        (runStmts env ed l gi ci).executed < l.length := by
  intro l
  induction l with
  | nil => intro gi ci h; simp [clickReachable] at h
  | cons st rest ih =>
    intro gi ci h
    cases st with
    | goto url t =>
      have h' : clickReachable rest = true := by simpa [clickReachable] using h
      obtain ⟨h1, h2, h3⟩ := ih (gi + 1) ci h'
      simp only [runStmts, hg gi, if_true]
      exact ⟨h1, h2, by simpa using Nat.succ_lt_succ h3⟩
    | tryWaitLoadState t =>
      have h' : clickReachable rest = true := by simpa [clickReachable] using h
      obtain ⟨h1, h2, h3⟩ := ih gi ci h'
      simp only [runStmts]
      exact ⟨h1, h2, by simpa using Nat.succ_lt_succ h3⟩
    | framesWaitLoadState t =>
      have h' : clickReachable rest = true := by simpa [clickReachable] using h
      obtain ⟨h1, h2, h3⟩ := ih gi ci h'
      simp only [runStmts]
      exact ⟨h1, h2, by simpa using Nat.succ_lt_succ h3⟩
    | sleepSecs n =>
      have h' : clickReachable rest = true := by simpa [clickReachable] using h
      obtain ⟨h1, h2, h3⟩ := ih gi ci h'
      simp only [runStmts]
      exact ⟨h1, h2, by simpa using Nat.succ_lt_succ h3⟩
    | click xp g t =>
      simp [runStmts, hc ci]
    | assertVisible txt t msg =>
      simp [clickReachable] at h

/-- With every navigation committing and every click succeeding, a statement list
that contains an assertion block, run with `expect` undefined, raises an uncaught
`NameError` on the name `expect`. -/
theorem runStmts_noExpect (env : Env)
    (hg : ∀ n, env.gotoOk n = true) (hc : ∀ n, env.clickOk n = true) :
    ∀ (l : List Stmt) (gi ci : Nat), assertReachable l = true →
      (runStmts env false l gi ci).err = some (PyError.nameError "expect") := by
  intro l
  induction l with
  | nil => intro gi ci h; simp [assertReachable] at h
  | cons st rest ih =>
    intro gi ci h
    cases st with
    | goto url t =>
      have h' : assertReachable rest = true := by simpa [assertReachable] using h
      simp only [runStmts, hg gi, if_true]
      exact ih (gi + 1) ci h'
    | tryWaitLoadState t =>
      have h' : assertReachable rest = true := by simpa [assertReachable] using h
      simp only [runStmts]
      exact ih gi ci h'
    | framesWaitLoadState t =>
      have h' : assertReachable rest = true := by simpa [assertReachable] using h
      simp only [runStmts]
      exact ih gi ci h'
    | sleepSecs n =>
      have h' : assertReachable rest = true := by simpa [assertReachable] using h
      simp only [runStmts]
      exact ih gi ci h'
    | click xp g t =>
      have h' : assertReachable rest = true := by simpa [assertReachable] using h
      simp only [runStmts, hc ci, if_true]
      exact ih gi (ci + 1) h'
    | assertVisible txt t msg =>
      simp [runStmts]

/-- With every navigation committing and every click succeeding, a statement list
run with `expect` undefined completes exactly the clicks that precede the first
assertion block. -/
theorem runStmts_clicksDone (env : Env)
    (hg : ∀ n, env.gotoOk n = true) (hc : ∀ n, env.clickOk n = true) :
    ∀ (l : List Stmt) (gi ci : Nat),
      (runStmts env false l gi ci).clicksDone = clicksBeforeAssert l := by
  intro l
  induction l with
  | nil => intro gi ci; simp [runStmts, clicksBeforeAssert]
  | cons st rest ih =>
    intro gi ci
    cases st with
    | goto url t =>
      simp only [runStmts, hg gi, if_true, clicksBeforeAssert]
      exact ih (gi + 1) ci
    | tryWaitLoadState t =>
      simp only [runStmts, clicksBeforeAssert]
      exact ih gi ci
    | framesWaitLoadState t =>
      simp only [runStmts, clicksBeforeAssert]
      exact ih gi ci
    | sleepSecs n =>
      simp only [runStmts, clicksBeforeAssert]
      exact ih gi ci
    | click xp g t =>
      simp only [runStmts, hc ci, if_true, clicksBeforeAssert]
      simpa using ih gi (ci + 1)
    | assertVisible txt t msg =>
      simp [runStmts, clicksBeforeAssert]

/-- Under a parsed module and a fully successful bootstrap, running the script is
running its body statements inside the try, with every resource created and the
teardown releasing all three. -/
theorem runScript_run (s : Script) (env : Env) (hp : pyParses s = true)
    (h1 : env.pwStartOk = true) (h2 : env.launchOk = true)
    (h3 : env.newContextOk = true) (h4 : env.newPageOk = true) :
    runScript s env =
      { exit := bodyExit (runStmts env expectDefined (stmtsOf s.body) 0 0),
        sessionStarted := true, createdPw := true, createdBrowser := true,
        createdContext := true, closes := teardownCloses true true true,
        stmtsDone := (runStmts env expectDefined (stmtsOf s.body) 0 0).executed,
        gotosDone := (runStmts env expectDefined (stmtsOf s.body) 0 0).gotosDone,
        clicksDone := (runStmts env expectDefined (stmtsOf s.body) 0 0).clicksDone,
        assertsDone := (runStmts env expectDefined (stmtsOf s.body) 0 0).assertsDone } := by
  simp [runScript, hp, h1, h2, h3, h4]


/-- Every parsed script reaches a click statement before any assertion block. -/
theorem parsed_clickReachable :
    ∀ s ∈ allScripts, pyParses s = true → clickReachable (stmtsOf s.body) = true := by
  decide

/-- Every script whose assertion block is live parses and reaches the block. -/
theorem liveAssert_props :
    ∀ s ∈ scriptsWithLiveAssert,
      pyParses s = true ∧ assertReachable (stmtsOf s.body) = true := by
  decide

/-- In every parsed script every click precedes the first assertion block, so the
clicks completed on a fully successful run are all of them. -/
theorem parsed_clicksBeforeAssert :
    ∀ s ∈ allScripts, pyParses s = true →
      clicksBeforeAssert (stmtsOf s.body) = numClicks s := by
  decide

/-- C1: TC007 and TC014 contain literal Markdown code-fence lines inside the body
of run_test, so neither module parses: on every run no browser session is started,
no statement — in particular no navigation or click — executes, and the final
payment assertion is never evaluated. -/
theorem C1_fenced_scripts_never_run :
    pyParses TC007 = false ∧ pyParses TC014 = false ∧
    ∀ env : Env,
      (runScript TC007 env).exit = ExitKind.syntaxError ∧
        (runScript TC007 env).sessionStarted = false ∧
        (runScript TC007 env).stmtsDone = 0 ∧
        (runScript TC007 env).gotosDone = 0 ∧
        (runScript TC007 env).clicksDone = 0 ∧
        (runScript TC007 env).assertsDone = 0 ∧
        (runScript TC014 env).exit = ExitKind.syntaxError ∧
        (runScript TC014 env).sessionStarted = false ∧
        (runScript TC014 env).stmtsDone = 0 ∧
        (runScript TC014 env).gotosDone = 0 ∧
        (runScript TC014 env).clicksDone = 0 ∧
        (runScript TC014 env).assertsDone = 0 := by
  have h7 : pyParses TC007 = false := by decide
  have h14 : pyParses TC014 = false := by decide
  refine ⟨h7, h14, fun env => ?_⟩
  simp [runScript, h7, h14]

/-- C2 as stated is false on the code: with the bootstrap and every navigation
succeeding but every click timing out, TC002 performs only 2 of its 6
navigations — the click failure aborts the remaining steps instead of being
swallowed. -/
theorem C2_counterexample : ¬ ClaimC2 := by
  intro h
  have hx := h TC002 mem_TC002 envClicksFail ⟨rfl, rfl, rfl, rfl⟩ (fun _ => rfl)
  revert hx
  decide

/-- C2 amended: a locator/click failure during a setup step is not swallowed: it
raises an uncaught Playwright timeout error which aborts the remaining steps of
the script.  With the bootstrap and every navigation succeeding and every click
timing out, every parsed script stops at its first click: no click completes and
execution ends strictly before the last statement. -/
theorem C2_amended_clicks_abort :
    ∀ s, s ∈ allScripts → pyParses s = true → ∀ env : Env, bootOk env →
      (∀ n, env.gotoOk n = true) → (∀ n, env.clickOk n = false) →
      (runScript s env).exit = ExitKind.raised PyError.playwrightTimeout ∧
        (runScript s env).clicksDone = 0 ∧
        (runScript s env).stmtsDone < (stmtsOf s.body).length := by
  intro s hs hp env hboot hg hc
  obtain ⟨h1, h2, h3, h4⟩ := hboot
  have hcr : clickReachable (stmtsOf s.body) = true := parsed_clickReachable s hs hp
  obtain ⟨he, hcd, hex⟩ :=
    runStmts_clicksFail env expectDefined hg hc (stmtsOf s.body) 0 0 hcr
  rw [runScript_run s env hp h1 h2 h3 h4]
  exact ⟨by simp [bodyExit, he], hcd, hex⟩

/-- Witness for the amended C2 at TC002 with every click timing out. -/
theorem C2_amended_witness :
    (runScript TC002 envClicksFail).exit = ExitKind.raised PyError.playwrightTimeout ∧
      (runScript TC002 envClicksFail).clicksDone = 0 ∧
      (runScript TC002 envClicksFail).stmtsDone < (stmtsOf TC002.body).length :=
  C2_amended_clicks_abort TC002 mem_TC002 (by decide) envClicksFail
    ⟨rfl, rfl, rfl, rfl⟩ (fun _ => rfl) (fun _ => rfl)

/-- C3 as stated is false on the code: TC012 (like TC002, TC008, TC009 and TC013)
contains no visibility assertion at all, so it does not end with an assertion
step. -/
theorem C3_counterexample : ¬ ClaimC3 := by
  intro h
  have hx := (h TC012 mem_TC012).2
  revert hx
  decide

/-- C3 amended: no script invokes a visibility assertion mid-flow — wherever an
assertion block occurs it is unique and stands at the end, just before the
trailing sleep — but only eight of the thirteen scripts contain one at all:
TC002, TC008, TC009, TC012 and TC013 have none (and the blocks of TC007 and TC014
are dead text inside unparseable fence lines). -/
theorem C3_amended_assert_final_when_present :
    ∀ s, s ∈ allScripts →
      (assertCount s = 0 ∨ (assertCount s = 1 ∧ endsWithAssert s = true)) ∧
      (assertCount s = 0 ↔ s.name ∈ ["TC002", "TC008", "TC009", "TC012", "TC013"]) := by
  decide

/-- Witness for the amended C3 at TC004, whose unique assertion block is final. -/
theorem C3_amended_witness :
    (assertCount TC004 = 0 ∨ (assertCount TC004 = 1 ∧ endsWithAssert TC004 = true)) ∧
      (assertCount TC004 = 0 ↔ TC004.name ∈ ["TC002", "TC008", "TC009", "TC012", "TC013"]) :=
  C3_amended_assert_final_when_present TC004 mem_TC004

/-- C4: `expect` is neither imported nor defined in any script, so in the six
scripts whose final assertion block is reached the block raises a NameError; the
handler catches only AssertionError, so the descriptive assertion failure is never
produced, while the finally-block teardown still closes context, browser and
session. -/
theorem C4_assert_block_raises_NameError :
    expectDefined = false ∧
    ∀ s, s ∈ scriptsWithLiveAssert → ∀ env : Env, bootOk env →
      (∀ n, env.gotoOk n = true) → (∀ n, env.clickOk n = true) →
      (runScript s env).exit = ExitKind.raised (PyError.nameError "expect") ∧
        (∀ msg, (runScript s env).exit ≠ ExitKind.raised (PyError.assertionError msg)) ∧
        (runScript s env).closes = [Res.context, Res.browser, Res.pw] := by
  refine ⟨by decide, ?_⟩
  intro s hs env hboot hg hc
  obtain ⟨h1, h2, h3, h4⟩ := hboot
  obtain ⟨hp, har⟩ := liveAssert_props s hs
  have hed : expectDefined = false := by decide
  have he := runStmts_noExpect env hg hc (stmtsOf s.body) 0 0 har
  rw [runScript_run s env hp h1 h2 h3 h4]
  refine ⟨?_, ?_, ?_⟩
  · simp only [hed]
    simp [bodyExit, he]
  · intro msg
    simp only [hed]
    simp [bodyExit, he]
  · simp [teardownCloses]

/-- Witness for C4 at TC004 with every navigation and click succeeding. -/
theorem C4_witness :
    (runScript TC004 envAllOk).exit = ExitKind.raised (PyError.nameError "expect") ∧
      (∀ msg, (runScript TC004 envAllOk).exit ≠ ExitKind.raised (PyError.assertionError msg)) ∧
      (runScript TC004 envAllOk).closes = [Res.context, Res.browser, Res.pw] :=
  C4_assert_block_raises_NameError.2 TC004 (List.Mem.head _) envAllOk
    ⟨rfl, rfl, rfl, rfl⟩ (fun _ => rfl) (fun _ => rfl)


theorem mem_TC009 : TC009 ∈ allScripts := by
  unfold allScripts
  repeat first
    | exact List.Mem.head _
    | apply List.Mem.tail

/-- Every script begins with a navigation statement. -/
theorem allScripts_firstGoto : ∀ s ∈ allScripts, firstStmtIsGoto s = true := by
  decide

/-- C5: on every exit path of every script — parse failure, any bootstrap
failure, an uncaught error in the body, or normal completion — the teardown
closes each of context, browser and playwright session exactly once if it was
created and never otherwise, and the closes happen in that order. -/
theorem C5_teardown_exact :
    ∀ s, s ∈ allScripts → ∀ env : Env,
      ((runScript s env).closes.count Res.context =
          if (runScript s env).createdContext then 1 else 0) ∧
      ((runScript s env).closes.count Res.browser =
          if (runScript s env).createdBrowser then 1 else 0) ∧
      ((runScript s env).closes.count Res.pw =
          if (runScript s env).createdPw then 1 else 0) ∧
      (runScript s env).closes.Sublist [Res.context, Res.browser, Res.pw] := by
  intro s _ env
  unfold runScript
  cases hpb : pyParses s <;>
    cases h1 : env.pwStartOk <;>
      cases h2 : env.launchOk <;>
        cases h3 : env.newContextOk <;>
          cases h4 : env.newPageOk <;>
            simp [teardownCloses]

/-- Witness for C5 at TC009 with a fully successful environment. -/
theorem C5_witness :
    ((runScript TC009 envAllOk).closes.count Res.context =
        if (runScript TC009 envAllOk).createdContext then 1 else 0) ∧
      ((runScript TC009 envAllOk).closes.count Res.browser =
          if (runScript TC009 envAllOk).createdBrowser then 1 else 0) ∧
      ((runScript TC009 envAllOk).closes.count Res.pw =
          if (runScript TC009 envAllOk).createdPw then 1 else 0) ∧
      (runScript TC009 envAllOk).closes.Sublist [Res.context, Res.browser, Res.pw] :=
  C5_teardown_exact TC009 mem_TC009 envAllOk

/-- C6 as stated is false on the code: with the bootstrap and navigations
succeeding but the clicks timing out, TC013 exits with an uncaught Playwright
timeout error — no `NotFound` outcome is ever reported. -/
theorem C6_counterexample : ¬ ClaimC6 := by
  intro h
  exact h TC013 mem_TC013 envClicksFail (by decide)

/-- C6 amended: the fallback candidates of a script are successive independent
click statements: when every candidate resolves, all the clicks are performed;
but the first candidate that fails to resolve raises an uncaught Playwright
timeout error which aborts the script — there is no `NotFound` outcome and the
later candidates are never attempted. -/
theorem C6_amended_first_failure_aborts :
    ∀ s, s ∈ allScripts → pyParses s = true → ∀ env : Env, bootOk env →
      (∀ n, env.gotoOk n = true) →
      ((∀ n, env.clickOk n = true) → (runScript s env).clicksDone = numClicks s) ∧
      ((∀ n, env.clickOk n = false) →
        (runScript s env).exit = ExitKind.raised PyError.playwrightTimeout ∧
          (runScript s env).clicksDone = 0) := by
  intro s hs hp env hboot hg
  obtain ⟨h1, h2, h3, h4⟩ := hboot
  have hed : expectDefined = false := by decide
  constructor
  · intro hc
    have hcd := runStmts_clicksDone env hg hc (stmtsOf s.body) 0 0
    rw [runScript_run s env hp h1 h2 h3 h4]
    simp only [hed]
    rw [hcd]
    exact parsed_clicksBeforeAssert s hs hp
  · intro hc
    have hcr : clickReachable (stmtsOf s.body) = true := parsed_clickReachable s hs hp
    obtain ⟨he, hcd, _⟩ :=
      runStmts_clicksFail env expectDefined hg hc (stmtsOf s.body) 0 0 hcr
    rw [runScript_run s env hp h1 h2 h3 h4]
    exact ⟨by simp [bodyExit, he], hcd⟩

/-- Witness for the amended C6 at TC013. -/
theorem C6_amended_witness :
    ((∀ n, envAllOk.clickOk n = true) →
        (runScript TC013 envAllOk).clicksDone = numClicks TC013) ∧
      ((∀ n, envAllOk.clickOk n = false) →
        (runScript TC013 envAllOk).exit = ExitKind.raised PyError.playwrightTimeout ∧
          (runScript TC013 envAllOk).clicksDone = 0) :=
  C6_amended_first_failure_aborts TC013 mem_TC013 (by decide) envAllOk
    ⟨rfl, rfl, rfl, rfl⟩ (fun _ => rfl)

/-- C7 as stated is false on the code: TC004's assertion failure message contains
neither the literal expected text "Available Rooms" nor its timeout value. -/
theorem C7_counterexample : ¬ ClaimC7 := by
  intro h
  have hx := h.1 TC004 mem_TC004
  revert hx
  decide

/-- C7 amended: every assertion block uses the 3000 ms visibility timeout, and
the two payment scripts textually assert "Payment Successful" and
"Payment failed. Please try again or cancel." within 3000 ms; but the failure
raised is a hand-written message that never reports the elapsed time and does not
always contain the literal expected text (TC004's does not, TC010's does). -/
theorem C7_amended_messages :
    (∀ s, s ∈ allScripts → assertTimeout3000 s = true ∧ assertMsgLacksElapsed s = true) ∧
      hasAssertOn TC007 "Payment Successful" 3000 = true ∧
      hasAssertOn TC014 "Payment failed. Please try again or cancel." 3000 = true ∧
      assertCarriesText TC004 = false ∧
      assertCarriesText TC010 = true := by
  decide

/-- Witness for the amended C7 at TC006. -/
theorem C7_amended_witness :
    assertTimeout3000 TC006 = true ∧ assertMsgLacksElapsed TC006 = true :=
  C7_amended_messages.1 TC006 mem_TC006

/-- C8: every click statement of every script waits exactly the 3000 ms grace
delay and clicks with exactly the 5000 ms timeout; no click statement of any
script uses any other constant. -/
theorem C8_click_constants :
    ∀ s, s ∈ allScripts → clickConstantsOk s = true := by
  decide

/-- Witness for C8 at TC013. -/
theorem C8_witness : clickConstantsOk TC013 = true :=
  C8_click_constants TC013 mem_TC013

/-- C9 as stated is false on the code: with the bootstrap succeeding and every
click succeeding but navigation timing out, TC008 exits with an uncaught
Playwright timeout error — `page.goto` raises instead of returning an outcome. -/
theorem C9_counterexample : ¬ ClaimC9 := by
  intro h
  exact h TC008 mem_TC008 envGotosFail ⟨rfl, rfl, rfl, rfl⟩ (fun _ => rfl) (by decide)

/-- C9 amended: every navigation is bounded by a 10000 ms timeout and `goto` is
used both for the initial load (the first statement of every script is a
navigation) and mid-script as a reset (some script navigates again after a
click); but a navigation that does not commit within its timeout raises an
uncaught Playwright timeout error that aborts the script before any statement
completes, rather than returning a `TimedOut` outcome. -/
theorem C9_amended_goto_raises :
    (∀ s, s ∈ allScripts → gotoTimeouts10000 s = true ∧ firstStmtIsGoto s = true) ∧
      (allScripts.any fun s => hasGotoAfterClick s) = true ∧
      (∀ s, s ∈ allScripts → pyParses s = true → ∀ env : Env, bootOk env →
        env.gotoOk 0 = false →
        (runScript s env).exit = ExitKind.raised PyError.playwrightTimeout ∧
          (runScript s env).stmtsDone = 0) := by
  refine ⟨by decide, by decide, ?_⟩
  intro s hs hp env hboot hg0
  obtain ⟨h1, h2, h3, h4⟩ := hboot
  have hfirst := allScripts_firstGoto s hs
  rw [runScript_run s env hp h1 h2 h3 h4]
  cases hl : stmtsOf s.body with
  | nil => simp [firstStmtIsGoto, hl] at hfirst
  | cons st rest =>
    cases st with
    | goto url t =>
      constructor
      · simp [hl, runStmts, hg0, bodyExit]
      · simp [hl, runStmts, hg0]
    | tryWaitLoadState t => simp [firstStmtIsGoto, hl] at hfirst
    | framesWaitLoadState t => simp [firstStmtIsGoto, hl] at hfirst
    | click xp g t => simp [firstStmtIsGoto, hl] at hfirst
    | assertVisible txt t msg => simp [firstStmtIsGoto, hl] at hfirst
    | sleepSecs n => simp [firstStmtIsGoto, hl] at hfirst

/-- Witness for the amended C9 at TC012 with every navigation timing out. -/
theorem C9_amended_witness :
    (gotoTimeouts10000 TC012 = true ∧ firstStmtIsGoto TC012 = true) ∧
      ((runScript TC012 envGotosFail).exit = ExitKind.raised PyError.playwrightTimeout ∧
        (runScript TC012 envGotosFail).stmtsDone = 0) :=
  ⟨C9_amended_goto_raises.1 TC012 mem_TC012,
   C9_amended_goto_raises.2.2 TC012 mem_TC012 (by decide) envGotosFail
     ⟨rfl, rfl, rfl, rfl⟩ rfl⟩

/-- C10: every navigation of every script targets the base URL
http://localhost:3000, varying only in route or query string; no script ever
navigates to another host or port. -/
theorem C10_urls_on_base :
    ∀ s, s ∈ allScripts → gotoUrlsOk s = true := by
  decide

/-- Witness for C10 at TC006, which navigates to the /rooms route. -/
theorem C10_witness : gotoUrlsOk TC006 = true :=
  C10_urls_on_base TC006 mem_TC006

end Kiosk
